import Mathlib

/-!
# Verification of the Collaboard TGA loader shim (`src/cpp/tga_loader.cpp`)

Shallow embedding of the two C functions `tga_load_rgba` and `tga_free`.

Modelling conventions:
* C pointers that may be null become `Option`: a `const char* path` is
  `Option String`, a `TgaImage* out` is `Option TgaImage`, and the pixel
  pointer `uint8_t* data` inside the record is `Option (List Nat)`
  (`none` = null pointer, `some buf` = pointer to the byte buffer `buf`).
* `size_t` values are `Nat` reduced modulo `2 ^ 64`; `int32_t` / `int`
  values are `Int` (the source never overflows them on the modelled paths,
  and the cast `(size_t)w` is modelled explicitly as wrapping).
* The external decoder `stbi_load(path, &w, &h, &c, 4)` is an oracle of
  type `StbiDecoder`: a function from the path to `Option StbiImage`.
  `none` models a null return (decode failure, no allocation);
  `some img` models a successful decode that allocated the buffer
  `img.pixels` and wrote `img.w`, `img.h` to the out-parameters.
* Observable effects are made explicit in the return values:
  `tga_load_rgba` reports the status, the value of `*out` after the call,
  whether `stbi_load` was invoked, and whether a decoder buffer was
  allocated by the call; `tga_free` returns the record value after the
  call together with the list of buffers passed to `stbi_image_free`.
-/

/-- The C struct `TgaImage` from `tga_loader.cpp`:
`int32_t width; int32_t height; int32_t channels; uint8_t* data; size_t len;`. -/
structure TgaImage where
  width : Int
  height : Int
  channels : Int
  data : Option (List Nat)
  len : Nat
deriving DecidableEq, Repr

/-- Result of a successful `stbi_load` call: the values written to the
`w`/`h` out-parameters (C `int`s) and the allocated RGBA pixel buffer. -/
structure StbiImage where
  w : Int
  h : Int
  pixels : List Nat
deriving DecidableEq, Repr

/-- The external decoder as an oracle: `stbi_load(path, &w, &h, &c, 4)`
either fails (`none`, returns a null pointer and allocates nothing) or
succeeds (`some img`). -/
def StbiDecoder : Type := String → Option StbiImage

/-- The contract of `stbi_load` on success with forced 4-channel output:
positive dimensions that fit in a C `int`, bytes, and a buffer of exactly
`w * h * 4` bytes. -/
def StbiImage.WF (img : StbiImage) : Prop :=
  0 < img.w ∧ img.w < 2 ^ 31 ∧ 0 < img.h ∧ img.h < 2 ^ 31 ∧
    (∀ b ∈ img.pixels, b < 256) ∧
    img.pixels.length = (img.w * img.h * 4).toNat

instance (img : StbiImage) : Decidable img.WF := by
  unfold StbiImage.WF; infer_instance

/-- The value a C `int` takes when converted to `size_t`
(the cast `(size_t)w` in the source): reduction modulo `2 ^ 64`. -/
def size_t_of_int (i : Int) : Nat := (i % (2 ^ 64 : Int)).toNat

/-- `(size_t)w * (size_t)h * 4` evaluated in C `size_t` arithmetic:
each multiplication wraps modulo `2 ^ 64`. -/
def len_calc (w h : Int) : Nat :=
  size_t_of_int w * size_t_of_int h % 2 ^ 64 * 4 % 2 ^ 64

/-- Everything observable about one `tga_load_rgba` call: the returned
status, the value of `*out` after the call (`none` when `out` was null),
whether `stbi_load` was invoked, and whether a decoder buffer was
allocated (stbi allocates exactly when it returns non-null). -/
structure LoadResult where
  status : Int
  out : Option TgaImage
  invoked : Bool
  allocated : Bool
deriving Repr

/-- Embedding of `tga_load_rgba` from `tga_loader.cpp`:
```
int tga_load_rgba(const char* path, TgaImage* out) {
  if (!path || !out) return -1;
  int w=0,h=0,c=0;
  unsigned char* p = stbi_load(path, &w, &h, &c, 4);
  if (!p) return -2;
  out->width = w; out->height = h; out->channels = 4;
  out->data = p; out->len = (size_t)w * (size_t)h * 4;
  return 0;
}
``` -/
def tga_load_rgba (stbi : StbiDecoder) (path : Option String)
    (out : Option TgaImage) : LoadResult :=
  match path, out with
  | none, _ => ⟨-1, out, false, false⟩
  | some _, none => ⟨-1, none, false, false⟩
  | some p, some o =>
    match stbi p with
    | none => ⟨-2, some o, true, false⟩
    | some img =>
      ⟨0,
       some { width := img.w, height := img.h, channels := 4,
              data := some img.pixels, len := len_calc img.w img.h },
       true, true⟩

/-- Embedding of `tga_free` from `tga_loader.cpp`:
```
void tga_free(TgaImage* img) {
  if (img && img->data) {
    stbi_image_free(img->data);
    img->data = nullptr; img->len = 0;
    img->width = img->height = img->channels = 0;
  }
}
```
Returns the record value after the call together with the list of buffers
passed to `stbi_image_free`. -/
def tga_free (img : Option TgaImage) : Option TgaImage × List (List Nat) :=
  match img with
  | none => (none, [])
  | some r =>
    match r.data with
    | none => (some r, [])
    | some buf =>
      (some { width := 0, height := 0, channels := 0, data := none, len := 0 },
       [buf])

/-- A decoder oracle that fails on every path (models `stbi_load` on a
file that cannot be opened, e.g. the empty filename). -/
def stbiFail : StbiDecoder := fun _ => none

/-- A sentinel-prefilled record, used to observe whether a call wrote to
the output record. -/
def sentinelRec : TgaImage := ⟨7, 7, 7, some [9], 7⟩

/-- A decoder oracle that decodes every path as a solid-red 1×1 image. -/
def stbiRed1x1 : StbiDecoder := fun _ => some ⟨1, 1, [255, 0, 0, 255]⟩

/-- A decoder oracle that reports a 65536×65536 image (buffer contents
irrelevant to the length computation under test). -/
def stbiBig : StbiDecoder := fun _ => some ⟨65536, 65536, []⟩

/-- When the int-to-`size_t` casts and the `size_t` multiplications do not
wrap, the stored length is the exact mathematical product `w * h * 4`. -/
theorem len_calc_exact (w h : Int) (hw : 0 ≤ w) (hh : 0 ≤ h)
    (hfit : w * h * 4 < 2 ^ 64) : (len_calc w h : Int) = w * h * 4 := by
  rcases eq_or_lt_of_le hw with hw0 | hwpos
  · simp [len_calc, size_t_of_int, ← hw0]
  rcases eq_or_lt_of_le hh with hh0 | hhpos
  · simp [len_calc, size_t_of_int, ← hh0]
  have hw64 : w < 2 ^ 64 := by nlinarith
  have hh64 : h < 2 ^ 64 := by nlinarith
  have hwcast : size_t_of_int w = w.toNat := by
    unfold size_t_of_int
    rw [Int.emod_eq_of_lt hw hw64]
  have hhcast : size_t_of_int h = h.toNat := by
    unfold size_t_of_int
    rw [Int.emod_eq_of_lt hh hh64]
  have hprodfit : w.toNat * h.toNat * 4 < 2 ^ 64 := by
    have : ((w.toNat * h.toNat * 4 : Nat) : Int) = w * h * 4 := by
      push_cast [Int.toNat_of_nonneg hw, Int.toNat_of_nonneg hh]
      ring
    omega
  have hinner : w.toNat * h.toNat < 2 ^ 64 := by omega
  unfold len_calc
  rw [hwcast, hhcast, Nat.mod_eq_of_lt hinner, Nat.mod_eq_of_lt hprodfit]
  push_cast [Int.toNat_of_nonneg hw, Int.toNat_of_nonneg hh]
  ring

/-- Under the `stbi_load` success contract, the product `w * h * 4` fits
in `size_t`: both dimensions are positive C `int` values. -/
theorem StbiImage.WF.fit {img : StbiImage} (hwf : img.WF) :
    img.w * img.h * 4 < 2 ^ 64 := by
  obtain ⟨hw, hw31, hh, hh31, -, -⟩ := hwf
  nlinarith

/-- C1: for every valid image of dimensions W×H that the decoder decodes,
`tga_load_rgba` returns status 0 and fills the record with
`width = W`, `height = H`, `channels = 4`, a non-null buffer reference to
the decoded pixels, and `len` equal to the buffer length `W * H * 4`. -/
theorem C1_decode_success (stbi : StbiDecoder) (p : String) (o : TgaImage)
    (img : StbiImage) (hdec : stbi p = some img) (hwf : img.WF) :
    tga_load_rgba stbi (some p) (some o) =
      ⟨0, some ⟨img.w, img.h, 4, some img.pixels, img.pixels.length⟩,
       true, true⟩ ∧
    (img.pixels.length : Int) = img.w * img.h * 4 := by
  have hfit := hwf.fit
  obtain ⟨hw, hw31, hh, hh31, hbytes, hlen⟩ := hwf
  have hcalc : (len_calc img.w img.h : Int) = img.w * img.h * 4 :=
    len_calc_exact _ _ hw.le hh.le hfit
  have hnn : (0 : Int) ≤ img.w * img.h * 4 := by positivity
  have hlen2 : len_calc img.w img.h = img.pixels.length := by
    rw [hlen]
    have h2 := congrArg Int.toNat hcalc
    simpa using h2
  refine ⟨by simp [tga_load_rgba, hdec, hlen2], ?_⟩
  rw [hlen, Int.toNat_of_nonneg hnn]

/-- C1 witness: the solid-red 1×1 oracle decodes to a fully populated
record with a 4-byte buffer. -/
theorem C1_decode_success_witness :
    tga_load_rgba stbiRed1x1 (some "red.tga") (some sentinelRec) =
      ⟨0, some ⟨1, 1, 4, some [255, 0, 0, 255], 4⟩, true, true⟩ ∧
    ((4 : Nat) : Int) = 1 * 1 * 4 :=
  C1_decode_success stbiRed1x1 "red.tga" sentinelRec ⟨1, 1, [255, 0, 0, 255]⟩
    rfl (by decide)

/-- C2 counterexample: with an empty (non-null) path the null check
`!path` passes, so `stbi_load` is invoked; opening the empty filename
fails (modelled by the always-failing oracle `stbiFail`), and the call
returns the decode-failure code `-2`, not the invalid-argument code `-1`.
The decoder is also invoked, contrary to the claim. -/
theorem C2_counterexample :
    (tga_load_rgba stbiFail (some "") (some sentinelRec)).status = -2 ∧
    (tga_load_rgba stbiFail (some "") (some sentinelRec)).status ≠ -1 ∧
    (tga_load_rgba stbiFail (some "") (some sentinelRec)).invoked = true := by
  decide

/-- C2 amended: for a null path, `tga_load_rgba` returns the
invalid-argument code `-1`, does not invoke the decoder, performs no
allocation, and leaves the output record unmodified; an empty (non-null)
path is not rejected as invalid — it is passed to the decoder, and when
the decoder fails to open the empty filename the call returns the
decode-failure code `-2` with the record unmodified and no allocation. -/
theorem C2_null_path_invalid_empty_path_decode_failure (stbi : StbiDecoder)
    (out : Option TgaImage) (o : TgaImage) (hempty : stbi "" = none) :
    tga_load_rgba stbi none out = ⟨-1, out, false, false⟩ ∧
    tga_load_rgba stbi (some "") (some o) = ⟨-2, some o, true, false⟩ :=
  ⟨rfl, by simp [tga_load_rgba, hempty]⟩

/-- C2 witness: the amended claim evaluated with the always-failing
oracle and the sentinel-prefilled record. -/
theorem C2_null_path_invalid_empty_path_decode_failure_witness :
    tga_load_rgba stbiFail none (some sentinelRec) =
      ⟨-1, some sentinelRec, false, false⟩ ∧
    tga_load_rgba stbiFail (some "") (some sentinelRec) =
      ⟨-2, some sentinelRec, true, false⟩ :=
  C2_null_path_invalid_empty_path_decode_failure stbiFail
    (some sentinelRec) sentinelRec rfl

/-- C3: for a null output-record reference, `tga_load_rgba` returns the
invalid-argument code `-1` without invoking the decoder and without
allocating. -/
theorem C3_null_out_rejected (stbi : StbiDecoder) (path : Option String) :
    tga_load_rgba stbi path none = ⟨-1, none, false, false⟩ := by
  cases path <;> rfl

/-- C4: when the decoder reports failure (returns a null buffer),
`tga_load_rgba` returns the decode-failure code `-2`, performs no
allocation, and the output record keeps its pre-call value. -/
theorem C4_decode_failure_atomic (stbi : StbiDecoder) (p : String)
    (o : TgaImage) (hfail : stbi p = none) :
    tga_load_rgba stbi (some p) (some o) = ⟨-2, some o, true, false⟩ := by
  simp [tga_load_rgba, hfail]

/-- C4 witness: the always-failing oracle on a concrete path leaves the
sentinel record untouched and returns `-2`. -/
theorem C4_decode_failure_atomic_witness :
    tga_load_rgba stbiFail (some "bad.tga") (some sentinelRec) =
      ⟨-2, some sentinelRec, true, false⟩ :=
  C4_decode_failure_atomic stbiFail "bad.tga" sentinelRec rfl

/-- C5: every call returns exactly one of the three stable codes
`0`/`-1`/`-2`; `-1` exactly on null path or null record
(invalid-argument), `-2` exactly when the decoder fails
(decode-failure), and `0` exactly on decoder success; the two failure
codes are distinct negative values. -/
theorem C5_status_trichotomy (stbi : StbiDecoder) (path : Option String)
    (out : Option TgaImage) :
    ((tga_load_rgba stbi path out).status = 0 ∨
      (tga_load_rgba stbi path out).status = -1 ∨
      (tga_load_rgba stbi path out).status = -2) ∧
    ((tga_load_rgba stbi path out).status = -1 ↔
      path = none ∨ out = none) ∧
    ((tga_load_rgba stbi path out).status = -2 ↔
      ∃ p o, path = some p ∧ out = some o ∧ stbi p = none) ∧
    ((tga_load_rgba stbi path out).status = 0 ↔
      ∃ p o img, path = some p ∧ out = some o ∧ stbi p = some img) ∧
    (-1 : Int) < 0 ∧ (-2 : Int) < 0 ∧ (-1 : Int) ≠ -2 := by
  rcases path with _ | p
  · simp [tga_load_rgba]
  rcases out with _ | o
  · simp [tga_load_rgba]
  rcases hdec : stbi p with _ | img <;> simp [tga_load_rgba, hdec]

/-- C6: releasing the record populated by a successful decode passes
exactly the decoder-allocated buffer to `stbi_image_free` (the matching
deallocation routine) and then zeroes the buffer reference, length,
width, height, and channel count. -/
theorem C6_release_frees_and_zeroes (stbi : StbiDecoder) (p : String)
    (o : TgaImage) (img : StbiImage) (hdec : stbi p = some img) :
    tga_free (tga_load_rgba stbi (some p) (some o)).out =
      (some ⟨0, 0, 0, none, 0⟩, [img.pixels]) := by
  simp [tga_load_rgba, hdec, tga_free]

/-- C6 witness: releasing the record produced by decoding with the
solid-red 1×1 oracle frees the 4-byte buffer and zeroes the record. -/
theorem C6_release_frees_and_zeroes_witness :
    tga_free (tga_load_rgba stbiRed1x1 (some "red.tga")
        (some sentinelRec)).out =
      (some ⟨0, 0, 0, none, 0⟩, [[255, 0, 0, 255]]) :=
  C6_release_frees_and_zeroes stbiRed1x1 "red.tga" sentinelRec
    ⟨1, 1, [255, 0, 0, 255]⟩ rfl

/-- C7: `tga_free` on a record whose buffer reference is already null
frees nothing and leaves the record unchanged, and a second `tga_free`
on the record left by any first `tga_free` call changes nothing and
frees nothing, so two calls are observationally one. -/
theorem C7_release_idempotent (w h c : Int) (l : Nat)
    (r : Option TgaImage) :
    tga_free (some ⟨w, h, c, none, l⟩) = (some ⟨w, h, c, none, l⟩, []) ∧
    tga_free (tga_free r).1 = ((tga_free r).1, []) := by
  refine ⟨rfl, ?_⟩
  rcases r with _ | ⟨rw, rh, rc, rd, rl⟩
  · rfl
  rcases rd with _ | buf <;> rfl

/-- C8: on success the stored length is computed in `size_t` arithmetic,
and equals the exact mathematical product `w * h * 4` whenever that
product fits in `size_t` — in particular also when it exceeds 32 bits. -/
theorem C8_len_wide_arithmetic (stbi : StbiDecoder) (p : String)
    (o : TgaImage) (img : StbiImage) (hdec : stbi p = some img)
    (hw : 0 ≤ img.w) (hh : 0 ≤ img.h)
    (hfit : img.w * img.h * 4 < 2 ^ 64) :
    (tga_load_rgba stbi (some p) (some o)).out =
      some ⟨img.w, img.h, 4, some img.pixels, len_calc img.w img.h⟩ ∧
    (len_calc img.w img.h : Int) = img.w * img.h * 4 :=
  ⟨by simp [tga_load_rgba, hdec], len_calc_exact _ _ hw hh hfit⟩

/-- C8 witness: a 65536×65536 image stores the length
`65536 * 65536 * 4 = 2^34`, which exceeds 32-bit arithmetic. -/
theorem C8_len_wide_arithmetic_witness :
    (tga_load_rgba stbiBig (some "big.tga") (some sentinelRec)).out =
      some ⟨65536, 65536, 4, some [], len_calc 65536 65536⟩ ∧
    (len_calc 65536 65536 : Int) = 65536 * 65536 * 4 :=
  C8_len_wide_arithmetic stbiBig "big.tga" sentinelRec ⟨65536, 65536, []⟩
    rfl (by decide) (by decide) (by decide)

/-- C9: the invariant `len = width * height * 4` holds after every
mutation of the record: after a successful decode, and after a
`tga_free` that frees a buffer (all fields zeroed, `0 = 0 * 0 * 4`). -/
theorem C9_len_invariant (stbi : StbiDecoder) (p : String) (o : TgaImage)
    (img : StbiImage) (hdec : stbi p = some img) (hwf : img.WF) :
    (∃ r, (tga_load_rgba stbi (some p) (some o)).out = some r ∧
        (r.len : Int) = r.width * r.height * 4) ∧
    (∀ w h c buf l, ∃ r2,
        (tga_free (some ⟨w, h, c, some buf, l⟩)).1 = some r2 ∧
        (r2.len : Int) = r2.width * r2.height * 4) := by
  constructor
  · obtain ⟨hw, hw31, hh, hh31, -, -⟩ := hwf
    have hfit : img.w * img.h * 4 < 2 ^ 64 := by nlinarith
    exact ⟨⟨img.w, img.h, 4, some img.pixels, len_calc img.w img.h⟩,
      by simp [tga_load_rgba, hdec],
      len_calc_exact _ _ hw.le hh.le hfit⟩
  · intro w h c buf l
    exact ⟨⟨0, 0, 0, none, 0⟩, rfl, by norm_num⟩

/-- C9 witness: the invariant evaluated on the solid-red 1×1 decode and
on a concrete release. -/
theorem C9_len_invariant_witness :
    (∃ r, (tga_load_rgba stbiRed1x1 (some "red.tga")
          (some sentinelRec)).out = some r ∧
        (r.len : Int) = r.width * r.height * 4) ∧
    (∀ w h c buf l, ∃ r2,
        (tga_free (some ⟨w, h, c, some buf, l⟩)).1 = some r2 ∧
        (r2.len : Int) = r2.width * r2.height * 4) :=
  C9_len_invariant stbiRed1x1 "red.tga" sentinelRec
    ⟨1, 1, [255, 0, 0, 255]⟩ rfl (by decide)

/-- C10: calling `tga_free` on a null record reference writes nothing,
frees nothing, and does not crash: the null pointer is checked before
the record is dereferenced. -/
theorem C10_release_null_ref_noop : tga_free none = (none, []) := rfl
